import Mathlib

set_option linter.unnecessarySeqFocus false

/-!
Shallow embedding of the geoglows MCP glue code:
`src/mcp/geoglows_mcp_server.py` (dataframe serialization and the four
MCP tool functions) and `src/agents/agent.py` (the `plot_streamflow`
tool callback).  External libraries (the `geoglows.data` functions,
`json.dumps`/`json.loads`, pandas `to_json`/`to_datetime`) are
parameters of the embedding, gathered in environment structures.
-/

/-- A pandas `Timestamp`, modelled by its civil-time components (UTC). -/
structure Timestamp where
  year : Nat
  month : Nat
  day : Nat
  hour : Nat
  minute : Nat
  second : Nat
deriving DecidableEq, Repr

/-- Zero-pad a numeral to two digits, as in ISO-8601 fields. -/
def pad2 (n : Nat) : String :=
  if n < 10 then "0" ++ toString n else toString n

/-- Zero-pad a numeral to four digits, as in the ISO-8601 year field. -/
def pad4 (n : Nat) : String :=
  if n < 10 then "000" ++ toString n
  else if n < 100 then "00" ++ toString n
  else if n < 1000 then "0" ++ toString n
  else toString n

/-- `Timestamp.isoformat()` for a tz-aware (UTC) pandas timestamp. -/
def isoformat (t : Timestamp) : String :=
  pad4 t.year ++ "-" ++ pad2 t.month ++ "-" ++ pad2 t.day ++ "T" ++
    pad2 t.hour ++ ":" ++ pad2 t.minute ++ ":" ++ pad2 t.second ++ "+00:00"

/-- Lexicographic `≤` on timestamps, the order pandas uses to compare them. -/
def tsLeb (a b : Timestamp) : Bool :=
  if a.year ≠ b.year then a.year < b.year
  else if a.month ≠ b.month then a.month < b.month
  else if a.day ≠ b.day then a.day < b.day
  else if a.hour ≠ b.hour then a.hour < b.hour
  else if a.minute ≠ b.minute then a.minute < b.minute
  else a.second ≤ b.second

/-- The pandas dtype of a column, as far as the code inspects it:
`is_datetime64_any_dtype` distinguishes datetime columns from the rest. -/
inductive DType where
  | datetime
  | numeric
  | object
deriving DecidableEq, Repr

/-- A single dataframe cell: a timestamp, the missing-timestamp marker
`NaT`, a number, the missing-number marker `NaN`, a string, or `None`.
Numbers are modelled by integers; their arithmetic is never used. -/
inductive Cell where
  | ts (t : Timestamp)
  | NaT
  | num (x : Int)
  | NaN
  | str (s : String)
  | pyNone
deriving DecidableEq, Repr

/-- A Python value as it appears inside a `to_dict(orient="records")`
record (the payload later handed to `json.dumps`). -/
inductive PyVal where
  | vts (t : Timestamp)
  | vNaT
  | vnum (x : Int)
  | vNaN
  | vstr (s : String)
  | vnone
deriving DecidableEq, Repr

/-- A pandas dataframe, row-major: a named, typed index plus named,
typed columns; each row pairs its index cell with its column cells. -/
structure DataFrame where
  indexName : String
  indexDtype : DType
  colNames : List String
  colDtypes : List DType
  rows : List (Cell × List Cell)
deriving DecidableEq, Repr

/-- Default row used with `List.getD`. -/
def rowDflt : Cell × List Cell := (Cell.pyNone, [])

/-- The per-cell action of line 18 of the server:
`lambda x: x.isoformat() if pd.notna(x) else None` applied over a
datetime column (`pd.notna` is false on `NaT`/`NaN`/`None`). -/
def dtApply : Cell → Cell
  | Cell.ts t => Cell.str (isoformat t)
  | Cell.NaT => Cell.pyNone
  | Cell.NaN => Cell.pyNone
  | Cell.pyNone => Cell.pyNone
  | c => c

/-- Convert one cell of a column of dtype `d`: datetime columns go
through `dtApply`, all other columns are left unchanged. -/
def applyDt (d : DType) (c : Cell) : Cell :=
  if d = DType.datetime then dtApply c else c

/-- The Python object a cell becomes inside a `to_dict` record. -/
def cellToPy : Cell → PyVal
  | Cell.ts t => PyVal.vts t
  | Cell.NaT => PyVal.vNaT
  | Cell.num x => PyVal.vnum x
  | Cell.NaN => PyVal.vNaN
  | Cell.str s => PyVal.vstr s
  | Cell.pyNone => PyVal.vnone

/-- One output record: after `reset_index` the index is the first
column, followed by the data columns, each converted per its dtype. -/
def dfRecord (df : DataFrame) (r : Cell × List Cell) : List (String × PyVal) :=
  (df.indexName, cellToPy (applyDt df.indexDtype r.1)) ::
    (df.colNames.zip (df.colDtypes.zip r.2)).map
      (fun p => (p.1, cellToPy (applyDt p.2.1 p.2.2)))

/-- `dataframe_to_json_serializable` (server lines 10-19): reset the
index into a column, map every datetime column through
`isoformat`/`None`, and emit `to_dict(orient="records")`. -/
def dataframe_to_json_serializable (df : DataFrame) : List (List (String × PyVal)) :=
  df.rows.map (dfRecord df)

/-- A Python exception, as far as the embedding distinguishes them. -/
inductive PyErr where
  | keyError (k : String)
  | typeError (m : String)
  | valueError (m : String)
  | jsonError (m : String)
  | libError (m : String)
deriving DecidableEq, Repr

/-- The external libraries the MCP server calls: the `geoglows.data`
fetchers (fallible: network errors, bad identifiers, empty frames),
`json.dumps` on a record list, pandas `DataFrame.to_json`, and
`pd.to_datetime` on a date string with `utc=True`. -/
structure Env where
  forecast : Int → Option String → Except PyErr DataFrame
  retrospective : Int → Except PyErr DataFrame
  forecast_stats : Int → Option String → Except PyErr DataFrame
  return_periods : Int → Except PyErr DataFrame
  dumps : List (List (String × PyVal)) → String
  to_json : DataFrame → String
  parse_date : String → Timestamp
  cell_to_datetime : Cell → Timestamp

/-- Python truthiness of an `Optional[str]`: `None` and `""` are falsy. -/
def truthyOpt : Option String → Bool
  | none => false
  | some s => s ≠ ""

/-- Element-wise `pd.to_datetime` over an index: timestamps stay,
missing values become `NaT`, other values are parsed. -/
def toDatetimeCell (L : Env) : Cell → Cell
  | Cell.ts t => Cell.ts t
  | Cell.NaT => Cell.NaT
  | Cell.NaN => Cell.NaT
  | Cell.pyNone => Cell.NaT
  | c => Cell.ts (L.cell_to_datetime c)

/-- `df.index = pd.to_datetime(df.index)` (server line 56). -/
def setDtIndex (L : Env) (df : DataFrame) : DataFrame :=
  { df with indexDtype := DType.datetime,
            rows := df.rows.map (fun r => (toDatetimeCell L r.1, r.2)) }

/-- `df.index >= bound` on one row: true only for an actual timestamp
at or after the bound (`NaT` compares false, as in pandas). -/
def cellGe (c : Cell) (bound : Timestamp) : Bool :=
  match c with
  | Cell.ts t => tsLeb bound t
  | _ => false

/-- `df.index <= bound` on one row (`NaT` compares false). -/
def cellLe (c : Cell) (bound : Timestamp) : Bool :=
  match c with
  | Cell.ts t => tsLeb t bound
  | _ => false

/-- The row filtering of server lines 57-60: keep rows at or after
`start_date` when it is truthy, then at or before `end_date` when it
is truthy. -/
def boundFilter (L : Env) (sd ed : Option String) (rows : List (Cell × List Cell)) :
    List (Cell × List Cell) :=
  let r1 := if truthyOpt sd then
      rows.filter (fun r => cellGe r.1 (L.parse_date (sd.getD ""))) else rows
  if truthyOpt ed then
      r1.filter (fun r => cellLe r.1 (L.parse_date (ed.getD ""))) else r1

/-- The dataframe `get_historical_streamflow` serializes: the
retrospective frame with datetime index, filtered by the bounds. -/
def historicalDf (L : Env) (river_id : Int) (sd ed : Option String) :
    Except PyErr DataFrame :=
  (L.retrospective river_id).map (fun df0 =>
    let df1 := setDtIndex L df0
    { df1 with rows := boundFilter L sd ed df1.rows })

/-- `get_forecasted_streamflow` (server lines 32-43). -/
def get_forecasted_streamflow (L : Env) (river_id : Int) (date : Option String) :
    Except PyErr String :=
  (L.forecast river_id date).map
    (fun df => L.dumps (dataframe_to_json_serializable df))

/-- `get_historical_streamflow` (server lines 45-63). -/
def get_historical_streamflow (L : Env) (river_id : Int) (sd ed : Option String) :
    Except PyErr String :=
  (historicalDf L river_id sd ed).map
    (fun df => L.dumps (dataframe_to_json_serializable df))

/-- `get_forecast_stats` (server lines 65-76). -/
def get_forecast_stats (L : Env) (river_id : Int) (date : Option String) :
    Except PyErr String :=
  (L.forecast_stats river_id date).map
    (fun df => L.dumps (dataframe_to_json_serializable df))

/-- `get_return_periods` (server lines 78-86): fetch and serialize via
the dataframe's own `to_json`, with no timestamp conversion step. -/
def get_return_periods (L : Env) (river_id : Int) : Except PyErr String :=
  (L.return_periods river_id).map L.to_json

/-- Modelled from the spec: "Each function is a one-call forwarding
wrapper (fetch via library, convert timestamps to strings, serialize
to text)" — the fetched frame goes straight through
`dataframe_to_json_serializable` and `json.dumps`. -/
def oneCallWrapper (L : Env) (fetched : Except PyErr DataFrame) :
    Except PyErr String :=
  fetched.map (fun df => L.dumps (dataframe_to_json_serializable df))

/-- The registered signature of one MCP tool. -/
structure ToolSig where
  name : String
  hasRiverParam : Bool
  requiredDateParams : Nat
  optionalDateParams : Nat
  returnsJsonText : Bool
deriving DecidableEq, Repr

/-- The tools registered with `@mcp.tool()` in the server (the
commented-out `get_reach_id` is not registered): each takes a
`river_id`, its date parameters all default to `None`, and each
returns a JSON string. -/
def toolRegistry : List ToolSig :=
  [ { name := "get_forecasted_streamflow", hasRiverParam := true,
      requiredDateParams := 0, optionalDateParams := 1, returnsJsonText := true },
    { name := "get_historical_streamflow", hasRiverParam := true,
      requiredDateParams := 0, optionalDateParams := 2, returnsJsonText := true },
    { name := "get_forecast_stats", hasRiverParam := true,
      requiredDateParams := 0, optionalDateParams := 1, returnsJsonText := true },
    { name := "get_return_periods", hasRiverParam := true,
      requiredDateParams := 0, optionalDateParams := 0, returnsJsonText := true } ]

/-- A parsed JSON value, as produced by `json.loads`. -/
inductive Json where
  | jnull
  | jbool (b : Bool)
  | jnum (x : Int)
  | jstr (s : String)
  | jarr (xs : List Json)
  | jobj (kvs : List (String × Json))
deriving Repr

/-- Python `mapping[key]`: `KeyError` on a missing key, `TypeError`
when the value is not a mapping. -/
def jget (j : Json) (k : String) : Except PyErr Json :=
  match j with
  | Json.jobj kvs =>
    match kvs.lookup k with
    | some v => Except.ok v
    | none => Except.error (PyErr.keyError k)
  | _ => Except.error (PyErr.typeError "not a mapping")

/-- The string content of a JSON value, when it is a string:
`json.loads` raises `TypeError` on anything but `str`/`bytes`. -/
def asStrJ : Json → Except PyErr String
  | Json.jstr s => Except.ok s
  | _ => Except.error (PyErr.typeError "the JSON object must be str")

/-- Python `==` against a string literal: equal only to that string. -/
def drStr : Json → Option String
  | Json.jstr s => some s
  | _ => none

/-- Python `str()` on the scalar JSON values the agent schema can put
in `reach_id` (an `int` per `GeoglowsAgentOutput`). -/
def pyStr : Json → String
  | Json.jstr s => s
  | Json.jnum x => toString x
  | Json.jbool true => "True"
  | Json.jbool false => "False"
  | Json.jnull => "None"
  | _ => "object"

/-- The keys of a JSON object, in order. -/
def keysOf : Json → List String
  | Json.jobj kvs => kvs.map Prod.fst
  | _ => []

/-- Whether a JSON value is an object. -/
def isObjJ : Json → Bool
  | Json.jobj _ => true
  | _ => false

/-- Union of record keys in first-appearance order, the column set
pandas builds from a list of record dicts. -/
def unionKeys (xs : List Json) : List String :=
  xs.foldl (fun acc j => acc ++ (keysOf j).filter (fun k => ¬ acc.contains k)) []

/-- Column names of `pd.DataFrame(records)`, modelled on the shape the
agent schema produces: a JSON array of record objects.  Other shapes
are rejected (the constructor fails on them or yields columns none of
the dispatch branches use). -/
def dfColsOf : Json → Except PyErr (List String)
  | Json.jarr xs =>
    if xs.all isObjJ then Except.ok (unionKeys xs)
    else Except.error (PyErr.valueError "DataFrame constructor")
  | _ => Except.error (PyErr.valueError "DataFrame constructor")

/-- The external calls `plot_streamflow` makes through `json`:
`json.loads` on the stored string. -/
structure PlotEnv where
  json_loads : String → Except PyErr Json

/-- The value found in `tool_context.state['streamflow_out']`: either a
JSON string or an already-parsed mapping. -/
inductive StateVal where
  | strVal (s : String)
  | mapVal (j : Json)

/-- Lines 295-297: take the stored value and `json.loads` it when it
is a string. -/
def resolveResponse (E : PlotEnv) : StateVal → Except PyErr Json
  | StateVal.strVal s => E.json_loads s
  | StateVal.mapVal j => Except.ok j

/-- Lines 306-310: parse `mcp_response['data']`, build the dataframe,
and when a `time` column exists make it the index (removing it from
the columns).  `pd.to_datetime` on the values is modelled as total. -/
def loadedCols (E : PlotEnv) (j : Json) : Except PyErr (List String) := do
  let dv ← jget j "data"
  let s ← asStrJ dv
  let dj ← E.json_loads s
  let cols0 ← dfColsOf dj
  pure (if cols0.contains "time" then cols0.erase "time" else cols0)

/-- The observable outcome of one `plot_streamflow` run: the column it
chose, the columns it called `.plot` on, how many `fill_between`
bands it drew, the artifact names it saved, whether it returned early
on the return-periods branch, and the exception it raised, if any. -/
structure PlotOut where
  chosen : Option String := none
  plotCalls : List String := []
  fills : Nat := 0
  saves : List String := []
  earlyReturn : Bool := false
  err : Option PyErr := none
deriving DecidableEq, Repr

/-- Lines 338-349: `if col_to_plot and col_to_plot in df.columns`,
save the current figure as the artifact `geoglows_plot.png`. -/
def finishSave (st : PlotOut) (c : String) (cols : List String) : PlotOut :=
  if c ≠ "" ∧ cols.contains c then
    { st with saves := st.saves ++ ["geoglows_plot.png"] }
  else st

/-- `plot_streamflow` (agent lines 293-349): parse the stored state
value, return early for `get_return_periods`, build the dataframe,
dispatch on `data_request` to choose and plot a column (the
forecast-stats branch chooses `flow_avg` but never plots it), and
save the figure when the chosen column exists. -/
def plot_streamflow (E : PlotEnv) (v : StateVal) : PlotOut :=
  match resolveResponse E v with
  | Except.error e => { err := some e }
  | Except.ok j =>
    match jget j "data_request" with
    | Except.error e => { err := some e }
    | Except.ok dr =>
      if drStr dr = some "get_return_periods" then { earlyReturn := true }
      else
        match loadedCols E j with
        | Except.error e => { err := some e }
        | Except.ok cols =>
          if drStr dr = some "get_forecasted_streamflow" then
            if cols.contains "flow_median" then
              if cols.contains "flow_uncertainty_lower" then
                if cols.contains "flow_uncertainty_upper" then
                  finishSave { chosen := some "flow_median",
                               plotCalls := ["flow_median"], fills := 1 }
                    "flow_median" cols
                else { chosen := some "flow_median", plotCalls := ["flow_median"],
                       err := some (PyErr.keyError "flow_uncertainty_upper") }
              else { chosen := some "flow_median", plotCalls := ["flow_median"],
                     err := some (PyErr.keyError "flow_uncertainty_lower") }
            else { chosen := some "flow_median",
                   err := some (PyErr.keyError "flow_median") }
          else if drStr dr = some "get_historical_streamflow" then
            match jget j "reach_id" with
            | Except.error e => { err := some e }
            | Except.ok rid =>
              let c := pyStr rid
              if cols.contains c then
                finishSave { chosen := some c, plotCalls := [c] } c cols
              else { chosen := some c, err := some (PyErr.keyError c) }
          else if drStr dr = some "get_forecast_stats" then
            finishSave { chosen := some "flow_avg" } "flow_avg" cols
          else
            {}

/-- A concrete textual rendering of one record value, used to
instantiate the abstract `json.dumps` parameter in examples. -/
def pyValStr : PyVal → String
  | PyVal.vstr s => s
  | PyVal.vnum x => toString x
  | PyVal.vNaN => "nan"
  | PyVal.vnone => "None"
  | PyVal.vts t => isoformat t
  | PyVal.vNaT => "NaT"

/-- A concrete textual rendering of one record. -/
def recordStr (r : List (String × PyVal)) : String :=
  String.intercalate "," (r.map (fun p => p.1 ++ "=" ++ pyValStr p.2))

/-- A concrete, injective-on-examples serializer standing in for
`json.dumps(..., indent=2)` in example environments. -/
def dumpsSimple (rs : List (List (String × PyVal))) : String :=
  String.intercalate ";" (rs.map recordStr)

/-- Two retrospective sample instants, one day apart. -/
def tsJan1 : Timestamp := ⟨1940, 1, 1, 7, 0, 0⟩

/-- The later of the two sample instants. -/
def tsJan2 : Timestamp := ⟨1940, 1, 2, 7, 0, 0⟩

/-- A two-row retrospective-style frame: datetime index `time`, one
numeric column named after the reach id. -/
def dfHist : DataFrame :=
  { indexName := "time", indexDtype := DType.datetime,
    colNames := ["760701588"], colDtypes := [DType.numeric],
    rows := [(Cell.ts tsJan1, [Cell.num 4099]), (Cell.ts tsJan2, [Cell.num 4108])] }

/-- A concrete `pd.to_datetime(_, utc=True)` for the sample dates. -/
def parseDateA (s : String) : Timestamp :=
  if s = "19400102" then ⟨1940, 1, 2, 0, 0, 0⟩ else ⟨1940, 1, 1, 0, 0, 0⟩

/-- A concrete environment whose fetchers all return `dfHist`. -/
def envA : Env :=
  { forecast := fun _ _ => Except.ok dfHist,
    retrospective := fun _ => Except.ok dfHist,
    forecast_stats := fun _ _ => Except.ok dfHist,
    return_periods := fun _ => Except.ok dfHist,
    dumps := dumpsSimple,
    to_json := fun _ => "to_json-output",
    parse_date := parseDateA,
    cell_to_datetime := fun _ => ⟨1970, 1, 1, 0, 0, 0⟩ }

/-- A concrete environment whose fetchers all fail. -/
def envErr : Env :=
  { forecast := fun _ _ => Except.error (PyErr.libError "boom"),
    retrospective := fun _ => Except.error (PyErr.libError "boom"),
    forecast_stats := fun _ _ => Except.error (PyErr.libError "boom"),
    return_periods := fun _ => Except.error (PyErr.libError "boom"),
    dumps := dumpsSimple,
    to_json := fun _ => "to_json-output",
    parse_date := parseDateA,
    cell_to_datetime := fun _ => ⟨1970, 1, 1, 0, 0, 0⟩ }

/-- Sample serialized stats data: one record with `time` and `flow_avg`. -/
def statsRecords : Json :=
  Json.jarr [Json.jobj [("time", Json.jstr "2025-10-24T00:00:00+00:00"),
                        ("flow_avg", Json.jnum 3752)]]

/-- Sample serialized forecast data: one record with the forecast columns. -/
def forecastRecords : Json :=
  Json.jarr [Json.jobj [("time", Json.jstr "2025-10-24T00:00:00+00:00"),
                        ("flow_uncertainty_upper", Json.jnum 3753),
                        ("flow_median", Json.jnum 3752),
                        ("flow_uncertainty_lower", Json.jnum 3751)]]

/-- Sample serialized historical data: one record keyed by the reach id. -/
def histRecords : Json :=
  Json.jarr [Json.jobj [("time", Json.jstr "1940-01-01T07:00:00+00:00"),
                        ("760701588", Json.jnum 4099)]]

/-- Sample serialized stats data with no `flow_avg` column. -/
def statsNoAvgRecords : Json :=
  Json.jarr [Json.jobj [("time", Json.jstr "2025-10-24T00:00:00+00:00"),
                        ("high_res", Json.jnum 3746)]]

/-- A sample parsed agent response requesting forecast stats. -/
def respStats : Json :=
  Json.jobj [("data_request", Json.jstr "get_forecast_stats"),
             ("reach_id", Json.jnum 760701588),
             ("data", Json.jstr "statsdata")]

/-- A sample parsed agent response requesting a forecast. -/
def respForecast : Json :=
  Json.jobj [("data_request", Json.jstr "get_forecasted_streamflow"),
             ("reach_id", Json.jnum 760701588),
             ("data", Json.jstr "forecastdata")]

/-- A sample parsed agent response requesting historical data. -/
def respHist : Json :=
  Json.jobj [("data_request", Json.jstr "get_historical_streamflow"),
             ("reach_id", Json.jnum 760701588),
             ("data", Json.jstr "histdata")]

/-- A sample parsed agent response requesting return periods; its data
payload still resolves, so the early return is what stops the run. -/
def respRet : Json :=
  Json.jobj [("data_request", Json.jstr "get_return_periods"),
             ("reach_id", Json.jnum 760701588),
             ("data", Json.jstr "histdata")]

/-- A sample parsed agent response for stats whose data lacks `flow_avg`. -/
def respStatsNoAvg : Json :=
  Json.jobj [("data_request", Json.jstr "get_forecast_stats"),
             ("reach_id", Json.jnum 760701588),
             ("data", Json.jstr "statsnoavg")]

/-- A concrete `json.loads` resolving the sample payload strings and
one full serialized agent response. -/
def loadsA (s : String) : Except PyErr Json :=
  if s = "statsdata" then Except.ok statsRecords
  else if s = "forecastdata" then Except.ok forecastRecords
  else if s = "histdata" then Except.ok histRecords
  else if s = "statsnoavg" then Except.ok statsNoAvgRecords
  else if s = "respstats" then Except.ok respStats
  else Except.error (PyErr.jsonError "Expecting value")

/-- A concrete plotting environment over `loadsA`. -/
def plotEnvA : PlotEnv := { json_loads := loadsA }

/-- The retrospective sample frame after filtering away its first day. -/
def dfHistAfter : DataFrame :=
  { dfHist with rows := [(Cell.ts tsJan2, [Cell.num 4108])] }

/-- A two-column frame holding the missing-value markers in
datetime-typed columns. -/
def dfMissing : DataFrame :=
  { indexName := "time", indexDtype := DType.datetime,
    colNames := ["created", "updated"], colDtypes := [DType.datetime, DType.datetime],
    rows := [(Cell.NaT, [Cell.NaT, Cell.NaN])] }

instance {α β : Type} [DecidableEq α] [DecidableEq β] :
    DecidableEq (Except α β) := fun a b =>
  match a, b with
  | Except.ok x, Except.ok y =>
    if h : x = y then isTrue (by rw [h])
    else isFalse (fun hc => h (Except.ok.inj hc))
  | Except.error x, Except.error y =>
    if h : x = y then isTrue (by rw [h])
    else isFalse (fun hc => h (Except.error.inj hc))
  | Except.ok _, Except.error _ => isFalse (fun hc => Except.noConfusion hc)
  | Except.error _, Except.ok _ => isFalse (fun hc => Except.noConfusion hc)

theorem finishSave_chosen (st : PlotOut) (c : String) (cols : List String) :
    (finishSave st c cols).chosen = st.chosen := by
  unfold finishSave; split <;> rfl

theorem mem_boundFilter (L : Env) (sd ed : Option String)
    (rows : List (Cell × List Cell)) (r : Cell × List Cell) :
    r ∈ boundFilter L sd ed rows ↔ r ∈ rows ∧
      (truthyOpt sd = true → cellGe r.1 (L.parse_date (sd.getD "")) = true) ∧
      (truthyOpt ed = true → cellLe r.1 (L.parse_date (ed.getD "")) = true) := by
  unfold boundFilter
  by_cases hs : truthyOpt sd = true <;> by_cases he : truthyOpt ed = true <;>
    simp [hs, he, List.mem_filter] <;> tauto

/-- C1: for every dataframe, `dataframe_to_json_serializable` returns
one record per input row, and every datetime-typed value (reset index
included) appears in its row's record as its ISO-8601 string. -/
theorem claim1_record_count_and_iso_timestamps (df : DataFrame) :
    (dataframe_to_json_serializable df).length = df.rows.length ∧
    ∀ r ∈ df.rows,
      dfRecord df r ∈ dataframe_to_json_serializable df ∧
      (∀ n t, (n, (DType.datetime, Cell.ts t)) ∈
          df.colNames.zip (df.colDtypes.zip r.2) →
        (n, PyVal.vstr (isoformat t)) ∈ dfRecord df r) ∧
      (df.indexDtype = DType.datetime → ∀ t, r.1 = Cell.ts t →
        (df.indexName, PyVal.vstr (isoformat t)) ∈ dfRecord df r) := by
  refine ⟨by simp [dataframe_to_json_serializable], ?_⟩
  intro r hr
  refine ⟨List.mem_map_of_mem _ hr, ?_, ?_⟩
  · intro n t hmem
    have hmap := List.mem_map_of_mem
      (fun p : String × DType × Cell => (p.1, cellToPy (applyDt p.2.1 p.2.2))) hmem
    exact List.mem_cons_of_mem _ hmap
  · intro hidx t ht
    have hz : applyDt df.indexDtype r.1 = Cell.str (isoformat t) := by
      rw [hidx, ht]; rfl
    unfold dfRecord
    rw [hz]
    exact List.mem_cons_self _ _

/-- Witness for C1 at the concrete two-row frame `dfHist`. -/
theorem claim1_record_count_and_iso_timestamps_witness :
    (dataframe_to_json_serializable dfHist).length = 2 ∧
    ("time", PyVal.vstr (isoformat tsJan1)) ∈
      dfRecord dfHist (Cell.ts tsJan1, [Cell.num 4099]) := by
  have h := claim1_record_count_and_iso_timestamps dfHist
  exact ⟨h.1, (h.2 (Cell.ts tsJan1, [Cell.num 4099])
    (List.mem_cons_self _ _)).2.2 rfl tsJan1 rfl⟩

/-- C8: every missing value (`NaT`/`NaN`) sitting in a datetime-typed
column (the reset index included) becomes `None` in the output record
of its row; the conversion is total, so nothing is raised and no
string is emitted for them. -/
theorem claim8_missing_datetime_to_none (df : DataFrame) :
    ∀ r ∈ df.rows,
      dfRecord df r ∈ dataframe_to_json_serializable df ∧
      (∀ n, (n, (DType.datetime, Cell.NaT)) ∈
          df.colNames.zip (df.colDtypes.zip r.2) →
        (n, PyVal.vnone) ∈ dfRecord df r) ∧
      (∀ n, (n, (DType.datetime, Cell.NaN)) ∈
          df.colNames.zip (df.colDtypes.zip r.2) →
        (n, PyVal.vnone) ∈ dfRecord df r) ∧
      (df.indexDtype = DType.datetime → r.1 = Cell.NaT →
        (df.indexName, PyVal.vnone) ∈ dfRecord df r) := by
  intro r hr
  refine ⟨List.mem_map_of_mem _ hr, ?_, ?_, ?_⟩
  · intro n hmem
    exact List.mem_cons_of_mem _ (List.mem_map_of_mem
      (fun p : String × DType × Cell => (p.1, cellToPy (applyDt p.2.1 p.2.2))) hmem)
  · intro n hmem
    exact List.mem_cons_of_mem _ (List.mem_map_of_mem
      (fun p : String × DType × Cell => (p.1, cellToPy (applyDt p.2.1 p.2.2))) hmem)
  · intro hidx ht
    have hz : applyDt df.indexDtype r.1 = Cell.pyNone := by rw [hidx, ht]; rfl
    unfold dfRecord
    rw [hz]
    exact List.mem_cons_self _ _

/-- Witness for C8 at the concrete frame `dfMissing`. -/
theorem claim8_missing_datetime_to_none_witness :
    ("created", PyVal.vnone) ∈ dfRecord dfMissing (Cell.NaT, [Cell.NaT, Cell.NaN]) ∧
    ("updated", PyVal.vnone) ∈ dfRecord dfMissing (Cell.NaT, [Cell.NaT, Cell.NaN]) ∧
    ("time", PyVal.vnone) ∈ dfRecord dfMissing (Cell.NaT, [Cell.NaT, Cell.NaN]) := by
  have h := claim8_missing_datetime_to_none dfMissing (Cell.NaT, [Cell.NaT, Cell.NaN])
    (List.mem_cons_self _ _)
  exact ⟨h.2.1 "created" (by decide), h.2.2.1 "updated" (by decide),
    h.2.2.2 rfl rfl⟩

/-- C2 counterexample: with a concrete library environment,
`get_historical_streamflow` called with a start date is not the plain
one-call forwarding wrapper around its fetch — the date filtering
drops the first retrospective row. -/
theorem claim2_forwarding_counterexample :
    get_historical_streamflow envA 1 (some "19400102") none ≠
      oneCallWrapper envA (envA.retrospective 1) := by decide

/-- C2 (amended): `get_forecasted_streamflow` and `get_forecast_stats`
are one-call forwarding wrappers around their fetches;
`get_historical_streamflow` applies that same wrapper only after
re-indexing the fetched frame to datetimes and filtering rows by the
truthy date bounds; `get_return_periods` fetches and serializes via
the dataframe's own `to_json`, with no timestamp-conversion step. -/
theorem claim2_forwarding_amended (L : Env) (river : Int)
    (d sd ed : Option String) :
    get_forecasted_streamflow L river d = oneCallWrapper L (L.forecast river d) ∧
    get_forecast_stats L river d = oneCallWrapper L (L.forecast_stats river d) ∧
    get_historical_streamflow L river sd ed =
      oneCallWrapper L (historicalDf L river sd ed) ∧
    get_return_periods L river = (L.return_periods river).map L.to_json :=
  ⟨rfl, rfl, rfl, rfl⟩

/-- C3: the registered tool surface is exactly the four operations;
each takes the river identifier, has no required date parameter (all
its date bounds are optional, at most two of them), and returns JSON
text. -/
theorem claim3_tool_surface :
    toolRegistry.length = 4 ∧
    toolRegistry.map ToolSig.name =
      ["get_forecasted_streamflow", "get_historical_streamflow",
       "get_forecast_stats", "get_return_periods"] ∧
    ∀ t ∈ toolRegistry, t.hasRiverParam = true ∧ t.requiredDateParams = 0 ∧
      t.optionalDateParams ≤ 2 ∧ t.returnsJsonText = true := by decide

/-- Witness for C3 at the first registered tool. -/
theorem claim3_tool_surface_witness :
    ({ name := "get_forecasted_streamflow", hasRiverParam := true,
       requiredDateParams := 0, optionalDateParams := 1,
       returnsJsonText := true } : ToolSig).hasRiverParam = true := by
  exact (claim3_tool_surface.2.2 _ (by decide)).1

/-- C4: when the underlying library call fails, each of the four
data-retrieval functions returns exactly that error — nothing is
caught, wrapped, or replaced. -/
theorem claim4_errors_propagate (L : Env) (river : Int)
    (d sd ed : Option String) (e : PyErr) :
    (L.forecast river d = Except.error e →
      get_forecasted_streamflow L river d = Except.error e) ∧
    (L.retrospective river = Except.error e →
      get_historical_streamflow L river sd ed = Except.error e) ∧
    (L.forecast_stats river d = Except.error e →
      get_forecast_stats L river d = Except.error e) ∧
    (L.return_periods river = Except.error e →
      get_return_periods L river = Except.error e) := by
  refine ⟨?_, ?_, ?_, ?_⟩ <;> intro h <;>
    simp [get_forecasted_streamflow, get_historical_streamflow, historicalDf,
      get_forecast_stats, get_return_periods, h, Except.map]

/-- Witness for C4 at the all-failing environment `envErr`. -/
theorem claim4_errors_propagate_witness :
    get_forecasted_streamflow envErr 1 none = Except.error (PyErr.libError "boom") ∧
    get_historical_streamflow envErr 1 none none = Except.error (PyErr.libError "boom") ∧
    get_forecast_stats envErr 1 none = Except.error (PyErr.libError "boom") ∧
    get_return_periods envErr 1 = Except.error (PyErr.libError "boom") := by
  have h := claim4_errors_propagate envErr 1 none none none (PyErr.libError "boom")
  exact ⟨h.1 rfl, h.2.1 rfl, h.2.2.1 rfl, h.2.2.2 rfl⟩

/-- C6: given the fetched retrospective frame, a row is in the result
of `get_historical_streamflow` exactly when it is a fetched row whose
index timestamp is at or after the truthy start bound and at or
before the truthy end bound (inclusive on both ends); with neither
bound provided, every fetched row is returned. -/
theorem claim6_inclusive_date_filtering (L : Env) (river : Int)
    (sd ed : Option String) (df0 dfF : DataFrame)
    (h0 : L.retrospective river = Except.ok df0)
    (hF : historicalDf L river sd ed = Except.ok dfF) :
    (∀ r, r ∈ dfF.rows ↔ r ∈ (setDtIndex L df0).rows ∧
        (truthyOpt sd = true → cellGe r.1 (L.parse_date (sd.getD "")) = true) ∧
        (truthyOpt ed = true → cellLe r.1 (L.parse_date (ed.getD "")) = true)) ∧
    (sd = none → ed = none → dfF.rows = (setDtIndex L df0).rows) := by
  have hf : ({ setDtIndex L df0 with
      rows := boundFilter L sd ed (setDtIndex L df0).rows } : DataFrame) = dfF := by
    have hm := hF
    rw [historicalDf, h0] at hm
    simpa [Except.map] using hm
  have hrows : dfF.rows = boundFilter L sd ed (setDtIndex L df0).rows := by
    rw [← hf]
  refine ⟨?_, ?_⟩
  · intro r
    rw [hrows]
    exact mem_boundFilter L sd ed _ r
  · intro hsd hed
    subst hsd; subst hed
    rw [hrows]
    simp [boundFilter, truthyOpt]

/-- Witness for C6: with the sample environment and start bound
1940-01-02, the later row is kept and the earlier row is excluded. -/
theorem claim6_inclusive_date_filtering_witness :
    (Cell.ts tsJan2, [Cell.num 4108]) ∈ dfHistAfter.rows ∧
    (Cell.ts tsJan1, [Cell.num 4099]) ∉ dfHistAfter.rows := by
  have h := claim6_inclusive_date_filtering envA 1 (some "19400102") none
    dfHist dfHistAfter rfl (by decide)
  constructor
  · exact (h.1 (Cell.ts tsJan2, [Cell.num 4108])).mpr (by decide)
  · intro hc
    exact absurd ((h.1 (Cell.ts tsJan1, [Cell.num 4099])).mp hc) (by decide)

/-- C5: `plot_streamflow` chooses `flow_median` for forecasts, the
string form of the reach identifier for historical data, `flow_avg`
for forecast stats, and for return periods chooses nothing and
returns before any dataframe or plotting work. -/
theorem claim5_plot_dispatch (E : PlotEnv) (j : Json) (cols : List String)
    (h : loadedCols E j = Except.ok cols) :
    (jget j "data_request" = Except.ok (Json.jstr "get_forecasted_streamflow") →
      (plot_streamflow E (StateVal.mapVal j)).chosen = some "flow_median") ∧
    (∀ rid, jget j "data_request" = Except.ok (Json.jstr "get_historical_streamflow") →
      jget j "reach_id" = Except.ok rid →
      (plot_streamflow E (StateVal.mapVal j)).chosen = some (pyStr rid)) ∧
    (jget j "data_request" = Except.ok (Json.jstr "get_forecast_stats") →
      (plot_streamflow E (StateVal.mapVal j)).chosen = some "flow_avg") ∧
    (jget j "data_request" = Except.ok (Json.jstr "get_return_periods") →
      plot_streamflow E (StateVal.mapVal j) = { earlyReturn := true }) := by
  refine ⟨?_, ?_, ?_, ?_⟩
  · intro hdr
    simp only [plot_streamflow, resolveResponse, hdr, h]
    repeat' split
    all_goals simp_all [drStr, finishSave_chosen]
  · intro rid hdr hrid
    simp only [plot_streamflow, resolveResponse, hdr, h, hrid]
    repeat' split
    all_goals simp_all [drStr, finishSave_chosen]
  · intro hdr
    simp only [plot_streamflow, resolveResponse, hdr, h]
    simp [drStr, finishSave_chosen]
  · intro hdr
    simp [plot_streamflow, resolveResponse, hdr, drStr]

/-- Witness for C5 at the four sample responses. -/
theorem claim5_plot_dispatch_witness :
    (plot_streamflow plotEnvA (StateVal.mapVal respForecast)).chosen = some "flow_median" ∧
    (plot_streamflow plotEnvA (StateVal.mapVal respHist)).chosen = some "760701588" ∧
    (plot_streamflow plotEnvA (StateVal.mapVal respStats)).chosen = some "flow_avg" ∧
    plot_streamflow plotEnvA (StateVal.mapVal respRet) = { earlyReturn := true } := by
  refine ⟨?_, ?_, ?_, ?_⟩
  · exact (claim5_plot_dispatch plotEnvA respForecast
      ["flow_uncertainty_upper", "flow_median", "flow_uncertainty_lower"] rfl).1 rfl
  · exact (claim5_plot_dispatch plotEnvA respHist ["760701588"] rfl).2.1
      (Json.jnum 760701588) rfl rfl
  · exact (claim5_plot_dispatch plotEnvA respStats ["flow_avg"] rfl).2.2.1 rfl
  · exact (claim5_plot_dispatch plotEnvA respRet ["760701588"] rfl).2.2.2 rfl

/-- C7: whatever the input, the only artifact name `plot_streamflow`
ever saves under is `geoglows_plot.png`. -/
theorem claim7_fixed_artifact_name (E : PlotEnv) (v : StateVal) :
    (plot_streamflow E v).saves = [] ∨
      (plot_streamflow E v).saves = ["geoglows_plot.png"] := by
  unfold plot_streamflow finishSave
  repeat' split
  all_goals simp
  all_goals repeat' split
  all_goals simp

/-- C9: on a stored JSON string that decodes to `j`, `plot_streamflow`
behaves exactly as on the already-parsed mapping `j`. -/
theorem claim9_state_value_forms_agree (E : PlotEnv) (s : String) (j : Json)
    (h : E.json_loads s = Except.ok j) :
    plot_streamflow E (StateVal.strVal s) = plot_streamflow E (StateVal.mapVal j) := by
  have hl : resolveResponse E (StateVal.strVal s) =
      resolveResponse E (StateVal.mapVal j) := by
    simp [resolveResponse, h]
  unfold plot_streamflow
  rw [hl]

/-- Witness for C9 at the serialized stats response. -/
theorem claim9_state_value_forms_agree_witness :
    plot_streamflow plotEnvA (StateVal.strVal "respstats") =
      plot_streamflow plotEnvA (StateVal.mapVal respStats) :=
  claim9_state_value_forms_agree plotEnvA "respstats" respStats rfl

/-- C10: on the forecast-stats branch, when `flow_avg` is a data
column the callback saves the artifact with no `.plot` call, no
uncertainty band, and no error; when `flow_avg` is absent it saves
nothing and raises nothing. -/
theorem claim10_stats_saves_without_plotting (E : PlotEnv) (j : Json)
    (cols : List String) (h : loadedCols E j = Except.ok cols)
    (hdr : jget j "data_request" = Except.ok (Json.jstr "get_forecast_stats")) :
    (cols.contains "flow_avg" = true →
      plot_streamflow E (StateVal.mapVal j) =
        { chosen := some "flow_avg", saves := ["geoglows_plot.png"] }) ∧
    (cols.contains "flow_avg" = false →
      plot_streamflow E (StateVal.mapVal j) = { chosen := some "flow_avg" }) := by
  constructor <;> intro hc <;>
    simp_all [plot_streamflow, resolveResponse, drStr, finishSave]

/-- Witness for C10 at the stats responses with and without `flow_avg`. -/
theorem claim10_stats_saves_without_plotting_witness :
    plot_streamflow plotEnvA (StateVal.mapVal respStats) =
      { chosen := some "flow_avg", saves := ["geoglows_plot.png"] } ∧
    plot_streamflow plotEnvA (StateVal.mapVal respStatsNoAvg) =
      { chosen := some "flow_avg" } := by
  exact ⟨(claim10_stats_saves_without_plotting plotEnvA respStats
      ["flow_avg"] rfl rfl).1 rfl,
    (claim10_stats_saves_without_plotting plotEnvA respStatsNoAvg
      ["high_res"] rfl rfl).2 rfl⟩
